import Mathlib

/-!
# Verification of the scapper interactive frame-scrubbing tool

Shallow embedding of `src/scapper.py` (a terminal video frame scrubber).
Python floats are modelled as rationals (`ℚ`); Python ints as `ℤ`/`ℕ`.
External collaborators (ffprobe, ffmpeg, viu, the terminal) are modelled by
their observable inputs/outputs: probe results are strings or `Option String`,
subprocess exit codes are integers, the filesystem is an association list.
-/

namespace Scapper

/-- Logical commands decoded from raw key input: `q`, `s`, `.`, `,`,
escape-`[`-`C`, escape-`[`-`D`, and everything else (ignored). -/
inductive KeyEvent : Type
  | quit
  | save
  | stepForward
  | stepBack
  | jumpForward
  | jumpBack
  | ignored
  deriving DecidableEq, Repr

/-- Python `int()` applied to a float: truncation toward zero. -/
def pyInt (q : ℚ) : ℤ :=
  if 0 ≤ q then ⌊q⌋ else ⌈q⌉

/-- `frames_to_move = max(1, int(framerate * 0.25))` from the indexed
escape-sequence branch (src/scapper.py line 135). -/
def framesToMove (framerate : ℚ) : ℤ :=
  max 1 (pyInt (framerate * (1/4)))

/-- One navigation transition of the indexed strategy
(src/scapper.py lines 126-139), acting on `current_frame`.
`quit`/`save`/`ignored` leave the position unchanged. -/
def indexedNav (total : ℤ) (framerate : ℚ) (i : ℤ) : KeyEvent → ℤ
  | .stepForward => if i < total - 1 then i + 1 else i
  | .stepBack => max 0 (i - 1)
  | .jumpForward => min (total - 1) (i + framesToMove framerate)
  | .jumpBack => max 0 (i - framesToMove framerate)
  | _ => i

/-- One navigation transition of the seeked strategy
(src/scapper.py lines 160-173), acting on `current_time`;
`frame_duration = 1/framerate` (line 148). -/
def seekedNav (duration framerate : ℚ) (t : ℚ) : KeyEvent → ℚ
  | .stepForward => if t + 1/framerate < duration then t + 1/framerate else t
  | .stepBack => max 0 (t - 1/framerate)
  | .jumpForward => if t + 1/4 < duration then t + 1/4 else t
  | .jumpBack => max 0 (t - 1/4)
  | _ => t

/-- Strategy tag: precomputed frame list vs. on-demand timestamp seek. -/
inductive Strategy : Type
  | indexed
  | seeked
  deriving DecidableEq, Repr

/-- Strategy selection (src/scapper.py line 109): indexed iff
`duration <= 120`, otherwise seeked. -/
def selectStrategy (duration : ℚ) : Strategy :=
  if duration ≤ 120 then .indexed else .seeked

/-! ## Saved-frame filenames and the filesystem model -/

/-- Frame data handled by `save_frame`: either raw PNG bytes piped from
ffmpeg (seeked strategy) or a path into the temp directory (indexed
strategy). Byte contents are abstracted to an identifier. -/
inductive FrameData : Type
  | bytes (id : ℕ)
  | path (p : String)
  deriving DecidableEq, Repr

/-- Round half to even, the tie-breaking used by Python's float formatting
and by Python `round()`. -/
def roundHalfEven (q : ℚ) : ℤ :=
  let f := ⌊q⌋
  if q - f < 1/2 then f
  else if 1/2 < q - f then f + 1
  else if f % 2 = 0 then f else f + 1

/-- Left-pad a fractional part to exactly three digits. -/
def pad3 (n : ℕ) : String :=
  if n < 10 then "00" ++ toString n
  else if n < 100 then "0" ++ toString n
  else toString n

/-- Python `f"{t:.3f}"`: the value rounded to three decimal places
(ties to even) and printed with exactly three fractional digits. -/
def fmt3 (t : ℚ) : String :=
  let m := roundHalfEven (t * 1000)
  if m < 0 then "-" ++ toString ((-m).toNat / 1000) ++ "." ++ pad3 ((-m).toNat % 1000)
  else toString (m.toNat / 1000) ++ "." ++ pad3 (m.toNat % 1000)

/-- The name of the file written for a save at `timestamp`
(src/scapper.py lines 82/86): `f"frame_\x7btimestamp:.3f\x7d.png"`. -/
def frame_filename (timestamp : ℚ) : String :=
  "frame_" ++ fmt3 timestamp ++ ".png"

/-- The working directory, as an association list from filename to
content. -/
abbrev FileSystem := List (String × FrameData)

/-- `open(filename, "wb")` / `shutil.copy2`: (over)write `name`, leaving at
most one entry for that name. -/
def writeFile (fs : FileSystem) (name : String) (data : FrameData) : FileSystem :=
  (name, data) :: fs.filter (fun p => p.1 != name)

/-- Number of retained files named `name`. -/
def countName (fs : FileSystem) (name : String) : ℕ :=
  fs.countP (fun p => p.1 == name)

/-- The content of the file named `name`, if present. -/
def readFile (fs : FileSystem) (name : String) : Option FrameData :=
  (fs.find? (fun p => p.1 == name)).map (fun p => p.2)

/-- The mutable session state touched by `save_frame`: the working
directory and the global `saved_frames` list. -/
structure SaveState : Type where
  fs : FileSystem
  saved_frames : List String
  deriving DecidableEq, Repr

/-- `save_frame(frame_data, timestamp)` (src/scapper.py lines 80-89):
writes `frame_<timestamp:.3f>.png` (bytes branch writes the bytes, path
branch copies the file; both overwrite an existing file of that name) and
appends the filename to `saved_frames`. -/
def save_frame (st : SaveState) (frame_data : FrameData) (timestamp : ℚ) : SaveState :=
  match frame_data with
  | .bytes _ =>
      { fs := writeFile st.fs (frame_filename timestamp) frame_data
        saved_frames := st.saved_frames ++ [frame_filename timestamp] }
  | .path _ =>
      { fs := writeFile st.fs (frame_filename timestamp) frame_data
        saved_frames := st.saved_frames ++ [frame_filename timestamp] }

/-! ## Subprocess model and the probes -/

/-- A raised `subprocess.CalledProcessError`, carrying the exit status. -/
structure CalledProcessError : Type where
  returncode : ℤ
  deriving DecidableEq, Repr

/-- The value returned by `subprocess.run`. -/
structure CompletedProcess : Type where
  returncode : ℤ
  deriving DecidableEq, Repr

/-- Python `subprocess.run(cmd)` without `check=True` (src/scapper.py
line 60): returns a `CompletedProcess` whatever the exit status; it never
raises `CalledProcessError`. -/
def subprocess_run (returncode : ℤ) : Except CalledProcessError CompletedProcess :=
  .ok ⟨returncode⟩

/-- Python `subprocess.check_output` (src/scapper.py lines 25/34/50):
raises `CalledProcessError` exactly when the exit status is nonzero. -/
def subprocess_check_output (returncode : ℤ) (output : String) :
    Except CalledProcessError String :=
  if returncode = 0 then .ok output else .error ⟨returncode⟩

/-- Numeric value of a digit character. -/
def digitVal (c : Char) : ℕ := c.toNat - 48

/-- Value of a (possibly empty) digit string. -/
def natOfDigits (cs : List Char) : ℕ :=
  cs.foldl (fun a c => a * 10 + digitVal c) 0

/-- Python `str.split(sep)` for a one-character separator: splitting the
empty text gives `[[]]`, and each occurrence of `sep` starts a new group. -/
def splitOnChar (sep : Char) : List Char → List (List Char)
  | [] => [[]]
  | c :: cs =>
      let r := splitOnChar sep cs
      if c = sep then [] :: r
      else
        match r with
        | [] => [[c]]
        | g :: gs => (c :: g) :: gs

/-- Python `float()` on the outputs ffprobe emits: an optionally
`-`-signed decimal numeral, with an optional fractional part; anything
else raises `ValueError`, modelled as `none`. -/
def pyFloatChars (cs : List Char) : Option ℚ :=
  let neg : Bool := match cs with | [] => false | c :: _ => c == '-'
  let sign : ℚ := if neg then -1 else 1
  let body : List Char := if neg then cs.tail else cs
  match splitOnChar '.' body with
  | [w] =>
      if w ≠ [] ∧ w.all Char.isDigit then
        some (sign * (natOfDigits w : ℚ))
      else none
  | [w, f] =>
      if (w ≠ [] ∨ f ≠ []) ∧ w.all Char.isDigit ∧ f.all Char.isDigit then
        some (sign * ((natOfDigits w : ℚ) + (natOfDigits f : ℚ) / 10 ^ f.length))
      else none
  | _ => none

/-- `float()` on a string. -/
def pyFloat (s : String) : Option ℚ := pyFloatChars s.toList

/-- `get_framerate()` (src/scapper.py lines 31-44). The ffprobe invocation
is modelled by its observable result: `none` when `check_output` raised
(nonzero exit, missing binary, ...), `some s` for stripped stdout `s`.
Mirrors the code: empty output returns the default 30.0; `"N/D"` is parsed
as a ratio (`ZeroDivisionError` on a zero denominator is swallowed by the
outer bare `except`, giving 30.0); if the split/unpack raises `ValueError`
the whole string is parsed as a plain float; any remaining failure falls to
the outer handler, which returns the default 30.0. -/
def get_framerate (probe : Option String) : ℚ :=
  match probe with
  | none => 30
  | some s =>
      if s.toList = [] then 30
      else
        match splitOnChar '/' s.toList with
        | [a, b] =>
            match pyFloatChars a, pyFloatChars b with
            | some num, some den => if den = 0 then 30 else num / den
            | _, _ => match pyFloatChars s.toList with | some v => v | none => 30
        | _ => match pyFloatChars s.toList with | some v => v | none => 30

/-- Insert into a sorted list, before any equal key (stable). -/
def insertSorted (n : ℕ) : List ℕ → List ℕ
  | [] => [n]
  | m :: ms => if n ≤ m then n :: m :: ms else m :: insertSorted n ms

/-- Python `sorted` with the numeric-index key (a stable sort; the keys
here are distinct numeric suffixes, so any sort agrees). -/
def sortIndices : List ℕ → List ℕ
  | [] => []
  | n :: ns => insertSorted n (sortIndices ns)

/-- `extract_all_frames()` (src/scapper.py lines 55-67), modelled by the
bulk ffmpeg run's observable result: its exit status and the numeric
indices of the `frame_<n>.png` files it left in the temp directory. The
code calls `subprocess.run` (no `check=True`), catches only
`CalledProcessError` (the `"Error extracting frames"` exit path), and
sorts the surviving files by their numeric index. -/
def extract_all_frames (returncode : ℤ) (pngIndices : List ℕ) :
    Except String (List ℕ) :=
  match subprocess_run returncode with
  | .ok _ => .ok (sortIndices pngIndices)
  | .error _ => .error "Error extracting frames"

/-! ## The interactive session loops -/

/-- One loop-iteration input: a decoded keystroke, or a fault — an
exception raised inside the loop body (rendering, file I/O, `sys.exit`
from a helper) that aborts the loop and propagates out of it. -/
inductive IEvent : Type
  | key (k : KeyEvent)
  | fault
  deriving DecidableEq, Repr

/-- How a session loop ends. -/
inductive Outcome : Type
  | quit        -- `break` on the `q` key
  | outOfRange  -- the indexed loop's "Frame index out of range" break
  | raised      -- an exception propagated out of the loop body
  | pending     -- modelled input exhausted, loop still blocked on `getch`
  deriving DecidableEq, Repr

/-- The indexed-strategy `while True` loop (src/scapper.py lines 116-142):
each iteration first checks `0 <= current_frame < total_frames` (breaking
with the out-of-range message otherwise), renders, reads one decoded input
and dispatches: `q` breaks, `s` saves the current frame file under the
proportional timestamp `current_frame/total_frames * duration`, navigation
keys move `current_frame`. `frames` gives the path stored at each index. -/
def runIndexedLoop (total : ℤ) (duration framerate : ℚ) (frames : ℤ → FrameData) :
    ℤ → SaveState → List IEvent → Outcome × ℤ × SaveState
  | i, st, inputs =>
    if 0 ≤ i ∧ i < total then
      match inputs with
      | [] => (.pending, i, st)
      | .fault :: _ => (.raised, i, st)
      | .key .quit :: _ => (.quit, i, st)
      | .key .save :: rest =>
          runIndexedLoop total duration framerate frames i
            (save_frame st (frames i) ((i : ℚ) / (total : ℚ) * duration)) rest
      | .key .stepForward :: rest =>
          runIndexedLoop total duration framerate frames
            (indexedNav total framerate i .stepForward) st rest
      | .key .stepBack :: rest =>
          runIndexedLoop total duration framerate frames
            (indexedNav total framerate i .stepBack) st rest
      | .key .jumpForward :: rest =>
          runIndexedLoop total duration framerate frames
            (indexedNav total framerate i .jumpForward) st rest
      | .key .jumpBack :: rest =>
          runIndexedLoop total duration framerate frames
            (indexedNav total framerate i .jumpBack) st rest
      | .key .ignored :: rest =>
          runIndexedLoop total duration framerate frames
            (indexedNav total framerate i .ignored) st rest
    else (.outOfRange, i, st)

/-- The seeked-strategy `while True` loop (src/scapper.py lines 150-173):
each iteration decodes the frame at `current_time` (modelled by `decode`),
renders, reads one decoded input and dispatches: `q` breaks, `s` saves the
decoded bytes under timestamp `current_time`, navigation keys move
`current_time`. -/
def runSeekedLoop (duration framerate : ℚ) (decode : ℚ → ℕ) :
    ℚ → SaveState → List IEvent → Outcome × ℚ × SaveState
  | t, st, inputs =>
    match inputs with
    | [] => (.pending, t, st)
    | .fault :: _ => (.raised, t, st)
    | .key .quit :: _ => (.quit, t, st)
    | .key .save :: rest =>
        runSeekedLoop duration framerate decode t
          (save_frame st (.bytes (decode t)) t) rest
    | .key .stepForward :: rest =>
        runSeekedLoop duration framerate decode
          (seekedNav duration framerate t .stepForward) st rest
    | .key .stepBack :: rest =>
        runSeekedLoop duration framerate decode
          (seekedNav duration framerate t .stepBack) st rest
    | .key .jumpForward :: rest =>
        runSeekedLoop duration framerate decode
          (seekedNav duration framerate t .jumpForward) st rest
    | .key .jumpBack :: rest =>
        runSeekedLoop duration framerate decode
          (seekedNav duration framerate t .jumpBack) st rest
    | .key .ignored :: rest =>
        runSeekedLoop duration framerate decode
          (seekedNav duration framerate t .ignored) st rest

/-- Result of the whole indexed branch, including whether
`shutil.rmtree(temp_dir)` ran. -/
structure IndexedRun : Type where
  outcome : Outcome
  final_frame : ℤ
  state : SaveState
  tempDirRemoved : Bool
  deriving DecidableEq, Repr

/-- The indexed branch (src/scapper.py lines 109-144): the session loop
runs inside `try:`, and the `finally: shutil.rmtree(temp_dir)` clause runs
on every way out of the block — the normal quit break, the out-of-range
break, and any exception propagating from the body — so the temp directory
is removed whichever `Outcome` the loop produced. -/
def indexed_strategy (total : ℤ) (duration framerate : ℚ) (frames : ℤ → FrameData)
    (st : SaveState) (inputs : List IEvent) : IndexedRun :=
  match runIndexedLoop total duration framerate frames 0 st inputs with
  | (.quit, i, st') =>
      { outcome := .quit, final_frame := i, state := st', tempDirRemoved := true }
  | (.outOfRange, i, st') =>
      { outcome := .outOfRange, final_frame := i, state := st', tempDirRemoved := true }
  | (.raised, i, st') =>
      { outcome := .raised, final_frame := i, state := st', tempDirRemoved := true }
  | (.pending, i, st') =>
      { outcome := .pending, final_frame := i, state := st', tempDirRemoved := true }

/-- The final report (src/scapper.py lines 175-177): the saved count and
the `saved_frames` filenames in list (i.e. append) order. -/
structure Report : Type where
  count : ℕ
  filenames : List String
  deriving DecidableEq, Repr

/-- `print(f"Saved {len(saved_frames)} frames")` then one filename per
line, in list order. -/
def final_report (st : SaveState) : Report :=
  ⟨st.saved_frames.length, st.saved_frames⟩

/-! ## Spec-side descriptions (for refinement statements)

These follow the spec's words, to be compared against the loop
definitions above. -/

/-- Spec-side: "the number of Save events processed during the session" —
saves strictly before the first Quit (a fault ends the session too). -/
def numSavesBeforeQuit : List IEvent → ℕ
  | [] => 0
  | .fault :: _ => 0
  | .key .quit :: _ => 0
  | .key .save :: rest => numSavesBeforeQuit rest + 1
  | .key .stepForward :: rest => numSavesBeforeQuit rest
  | .key .stepBack :: rest => numSavesBeforeQuit rest
  | .key .jumpForward :: rest => numSavesBeforeQuit rest
  | .key .jumpBack :: rest => numSavesBeforeQuit rest
  | .key .ignored :: rest => numSavesBeforeQuit rest

/-- Spec-side: "the filenames are listed in the order the saves occurred",
indexed strategy: the chronological list of filenames produced by the Save
events before the first Quit, tracking the frame index. -/
def indexedSaveLog (total : ℤ) (duration framerate : ℚ) :
    ℤ → List IEvent → List String
  | _, [] => []
  | _, .fault :: _ => []
  | _, .key .quit :: _ => []
  | i, .key .save :: rest =>
      frame_filename ((i : ℚ) / (total : ℚ) * duration)
        :: indexedSaveLog total duration framerate i rest
  | i, .key .stepForward :: rest =>
      indexedSaveLog total duration framerate (indexedNav total framerate i .stepForward) rest
  | i, .key .stepBack :: rest =>
      indexedSaveLog total duration framerate (indexedNav total framerate i .stepBack) rest
  | i, .key .jumpForward :: rest =>
      indexedSaveLog total duration framerate (indexedNav total framerate i .jumpForward) rest
  | i, .key .jumpBack :: rest =>
      indexedSaveLog total duration framerate (indexedNav total framerate i .jumpBack) rest
  | i, .key .ignored :: rest =>
      indexedSaveLog total duration framerate (indexedNav total framerate i .ignored) rest

/-- Spec-side: chronological save filenames, seeked strategy, tracking the
timestamp. -/
def seekedSaveLog (duration framerate : ℚ) : ℚ → List IEvent → List String
  | _, [] => []
  | _, .fault :: _ => []
  | _, .key .quit :: _ => []
  | t, .key .save :: rest => frame_filename t :: seekedSaveLog duration framerate t rest
  | t, .key .stepForward :: rest =>
      seekedSaveLog duration framerate (seekedNav duration framerate t .stepForward) rest
  | t, .key .stepBack :: rest =>
      seekedSaveLog duration framerate (seekedNav duration framerate t .stepBack) rest
  | t, .key .jumpForward :: rest =>
      seekedSaveLog duration framerate (seekedNav duration framerate t .jumpForward) rest
  | t, .key .jumpBack :: rest =>
      seekedSaveLog duration framerate (seekedNav duration framerate t .jumpBack) rest
  | t, .key .ignored :: rest =>
      seekedSaveLog duration framerate (seekedNav duration framerate t .ignored) rest

/-- Spec-side clamp, from the claims' words. -/
def specClamp (lo hi x : ℚ) : ℚ := max lo (min hi x)

/-! ## Helper lemmas -/

theorem save_frame_saved_frames (st : SaveState) (fd : FrameData) (t : ℚ) :
    (save_frame st fd t).saved_frames = st.saved_frames ++ [frame_filename t] := by
  cases fd <;> rfl

theorem save_frame_fs (st : SaveState) (fd : FrameData) (t : ℚ) :
    (save_frame st fd t).fs = writeFile st.fs (frame_filename t) fd := by
  cases fd <;> rfl

theorem countName_writeFile (fs : FileSystem) (name : String) (d : FrameData) :
    countName (writeFile fs name d) name = 1 := by
  simp [countName, writeFile, List.countP_cons, List.countP_filter]

theorem readFile_writeFile (fs : FileSystem) (name : String) (d : FrameData) :
    readFile (writeFile fs name d) name = some d := by
  simp [readFile, writeFile, List.find?]

theorem indexedSaveLog_length (total : ℤ) (duration framerate : ℚ) :
    ∀ (inputs : List IEvent) (i : ℤ),
      (indexedSaveLog total duration framerate i inputs).length
        = numSavesBeforeQuit inputs := by
  intro inputs
  induction inputs with
  | nil => intro i; rfl
  | cons e rest ih =>
      intro i
      cases e with
      | fault => rfl
      | key k => cases k <;> simp [indexedSaveLog, numSavesBeforeQuit, ih]

theorem seekedSaveLog_length (duration framerate : ℚ) :
    ∀ (inputs : List IEvent) (t : ℚ),
      (seekedSaveLog duration framerate t inputs).length = numSavesBeforeQuit inputs := by
  intro inputs
  induction inputs with
  | nil => intro t; rfl
  | cons e rest ih =>
      intro t
      cases e with
      | fault => rfl
      | key k => cases k <;> simp [seekedSaveLog, numSavesBeforeQuit, ih]

theorem runIndexedLoop_quit_saved (total : ℤ) (duration framerate : ℚ)
    (frames : ℤ → FrameData) :
    ∀ (inputs : List IEvent) (i : ℤ) (st : SaveState),
      (runIndexedLoop total duration framerate frames i st inputs).1 = .quit →
      (runIndexedLoop total duration framerate frames i st inputs).2.2.saved_frames
        = st.saved_frames ++ indexedSaveLog total duration framerate i inputs := by
  intro inputs
  induction inputs with
  | nil =>
      intro i st h
      by_cases hb : 0 ≤ i ∧ i < total <;> simp [runIndexedLoop, hb] at h
  | cons e rest ih =>
      intro i st h
      by_cases hb : 0 ≤ i ∧ i < total
      · cases e with
        | fault => simp [runIndexedLoop, hb] at h
        | key k =>
            cases k with
            | quit => simp [runIndexedLoop, hb, indexedSaveLog]
            | save =>
                simp only [runIndexedLoop, if_pos hb] at h ⊢
                rw [ih _ _ h, save_frame_saved_frames, indexedSaveLog,
                  List.append_assoc]
                rfl
            | stepForward =>
                simp only [runIndexedLoop, if_pos hb] at h ⊢
                rw [ih _ _ h, indexedSaveLog]
            | stepBack =>
                simp only [runIndexedLoop, if_pos hb] at h ⊢
                rw [ih _ _ h, indexedSaveLog]
            | jumpForward =>
                simp only [runIndexedLoop, if_pos hb] at h ⊢
                rw [ih _ _ h, indexedSaveLog]
            | jumpBack =>
                simp only [runIndexedLoop, if_pos hb] at h ⊢
                rw [ih _ _ h, indexedSaveLog]
            | ignored =>
                simp only [runIndexedLoop, if_pos hb] at h ⊢
                rw [ih _ _ h, indexedSaveLog]
      · cases e with
        | fault => simp [runIndexedLoop, hb] at h
        | key k => cases k <;> simp [runIndexedLoop, hb] at h

theorem runSeekedLoop_quit_saved (duration framerate : ℚ) (decode : ℚ → ℕ) :
    ∀ (inputs : List IEvent) (t : ℚ) (st : SaveState),
      (runSeekedLoop duration framerate decode t st inputs).1 = .quit →
      (runSeekedLoop duration framerate decode t st inputs).2.2.saved_frames
        = st.saved_frames ++ seekedSaveLog duration framerate t inputs := by
  intro inputs
  induction inputs with
  | nil => intro t st h; simp [runSeekedLoop] at h
  | cons e rest ih =>
      intro t st h
      cases e with
      | fault => simp [runSeekedLoop] at h
      | key k =>
          cases k with
          | quit => simp [runSeekedLoop, seekedSaveLog]
          | save =>
              simp only [runSeekedLoop] at h ⊢
              rw [ih _ _ h, save_frame_saved_frames, seekedSaveLog,
                List.append_assoc]
              rfl
          | stepForward =>
              simp only [runSeekedLoop] at h ⊢
              rw [ih _ _ h, seekedSaveLog]
          | stepBack =>
              simp only [runSeekedLoop] at h ⊢
              rw [ih _ _ h, seekedSaveLog]
          | jumpForward =>
              simp only [runSeekedLoop] at h ⊢
              rw [ih _ _ h, seekedSaveLog]
          | jumpBack =>
              simp only [runSeekedLoop] at h ⊢
              rw [ih _ _ h, seekedSaveLog]
          | ignored =>
              simp only [runSeekedLoop] at h ⊢
              rw [ih _ _ h, seekedSaveLog]

/-! ## Claim theorems -/

/-- C8: for every probed duration `d`, the session selects the Indexed
strategy exactly when `d ≤ 120` seconds, and the Seeked strategy exactly
when `d > 120` seconds. -/
theorem strategy_selection_threshold :
    ∀ d : ℚ, (selectStrategy d = .indexed ↔ d ≤ 120)
      ∧ (selectStrategy d = .seeked ↔ 120 < d) := by
  intro d
  by_cases h : d ≤ 120
  · simp [selectStrategy, h, not_lt.mpr h]
  · simp [selectStrategy, h, lt_of_not_le h]

set_option maxRecDepth 4000 in
theorem get_framerate_of_none : get_framerate none = 30 := by
  with_unfolding_all rfl

set_option maxRecDepth 4000 in
theorem get_framerate_of_empty : get_framerate (some "") = 30 := by
  with_unfolding_all rfl

set_option maxRecDepth 4000 in
theorem get_framerate_of_nonnumeric : get_framerate (some "abc") = 30 := by
  with_unfolding_all rfl

set_option maxRecDepth 4000 in
theorem get_framerate_of_ntsc : get_framerate (some "30000/1001") = 30000 / 1001 := by
  with_unfolding_all rfl

set_option maxRecDepth 4000 in
theorem get_framerate_of_ntsc_lb : (2996 / 100 : ℚ) < get_framerate (some "30000/1001") := by
  with_unfolding_all decide

set_option maxRecDepth 4000 in
theorem get_framerate_of_ntsc_ub : get_framerate (some "30000/1001") < 2998 / 100 := by
  with_unfolding_all decide

set_option maxRecDepth 4000 in
theorem get_framerate_of_plain_nat : get_framerate (some "25") = 25 := by
  with_unfolding_all rfl

set_option maxRecDepth 4000 in
theorem get_framerate_of_plain_decimal : get_framerate (some "2.5") = 5 / 2 := by
  with_unfolding_all rfl

set_option maxRecDepth 4000 in
theorem get_framerate_of_zero_den : get_framerate (some "30/0") = 30 := by
  with_unfolding_all rfl

set_option maxRecDepth 4000 in
theorem get_framerate_of_extra_slash : get_framerate (some "1/2/3") = 30 := by
  with_unfolding_all rfl

/-- C5: `get_framerate` parses the prober's output either as a ratio
`"N/D"` (so `"30000/1001"` yields `30000/1001 ≈ 29.97`) or as a plain
decimal, and returns the default `30.0` — without terminating the
session — on empty output, non-numeric output, a zero denominator, or
invocation failure (`none`). -/
theorem get_framerate_parses_ratio_or_decimal_with_default :
    get_framerate none = 30
    ∧ get_framerate (some "") = 30
    ∧ get_framerate (some "abc") = 30
    ∧ get_framerate (some "30000/1001") = 30000 / 1001
    ∧ (2996 / 100 : ℚ) < get_framerate (some "30000/1001")
    ∧ get_framerate (some "30000/1001") < 2998 / 100
    ∧ get_framerate (some "25") = 25
    ∧ get_framerate (some "2.5") = 5 / 2
    ∧ get_framerate (some "30/0") = 30
    ∧ get_framerate (some "1/2/3") = 30 :=
  ⟨get_framerate_of_none, get_framerate_of_empty, get_framerate_of_nonnumeric,
    get_framerate_of_ntsc, get_framerate_of_ntsc_lb, get_framerate_of_ntsc_ub,
    get_framerate_of_plain_nat, get_framerate_of_plain_decimal,
    get_framerate_of_zero_den, get_framerate_of_extra_slash⟩

/-- C6: in the Indexed strategy the temporary directory is removed on every
exit path of the session loop — normal quit, the out-of-range break, and
any exception propagating from the loop body — because the loop runs
inside `try:` with `finally: shutil.rmtree(temp_dir)`. -/
theorem indexed_temp_dir_always_removed :
    ∀ (total : ℤ) (duration framerate : ℚ) (frames : ℤ → FrameData)
      (st : SaveState) (inputs : List IEvent),
      (indexed_strategy total duration framerate frames st inputs).tempDirRemoved
        = true := by
  intro total duration framerate frames st inputs
  unfold indexed_strategy
  split <;> rfl

/-- C7: every save writes a file named `frame_<timestamp:.3f>.png`, and
saving twice at the identical timestamp leaves exactly one retained file
of that name, holding the second write's content. -/
theorem save_frame_filename_and_overwrite :
    ∀ (st : SaveState) (d1 d2 : FrameData) (t : ℚ),
      frame_filename t = "frame_" ++ fmt3 t ++ ".png"
      ∧ countName (save_frame (save_frame st d1 t) d2 t).fs (frame_filename t) = 1
      ∧ readFile (save_frame (save_frame st d1 t) d2 t).fs (frame_filename t)
          = some d2 := by
  intro st d1 d2 t
  refine ⟨rfl, ?_, ?_⟩
  · rw [save_frame_fs, countName_writeFile]
  · rw [save_frame_fs, readFile_writeFile]

/-- C9: a nonzero exit status of the bulk-extraction subprocess never
reaches the fatal `"Error extracting frames"` branch — `subprocess.run`
without `check=True` never raises `CalledProcessError`, so
`extract_all_frames` returns the (sorted) file list for every exit status;
an extraction that produced no files yields the empty list, and the
indexed loop over zero frames immediately reports out-of-range and
terminates. -/
theorem extract_failure_not_fatal_surfaces_out_of_range :
    ∀ (returncode : ℤ) (pngIndices : List ℕ) (duration framerate : ℚ)
      (frames : ℤ → FrameData) (st : SaveState) (inputs : List IEvent),
      extract_all_frames returncode pngIndices
          = .ok (sortIndices pngIndices)
      ∧ extract_all_frames returncode []
          = .ok []
      ∧ (extract_all_frames returncode pngIndices).isOk = true
      ∧ runIndexedLoop 0 duration framerate frames 0 st inputs
          = (.outOfRange, 0, st) := by
  intro returncode pngIndices duration framerate frames st inputs
  refine ⟨rfl, rfl, rfl, ?_⟩
  cases inputs with
  | nil => simp [runIndexedLoop]
  | cons e rest =>
      cases e with
      | fault => simp [runIndexedLoop]
      | key k => cases k <;> simp [runIndexedLoop]

/-- C1: every navigation command keeps the position within bounds — in the
Indexed strategy the frame index stays in `[0, total_frames-1]`, in the
Seeked strategy the timestamp stays in `[0, duration)` — and StepBack
iterated any number of times from position 0 leaves the position exactly 0
in both strategies. -/
theorem nav_position_bounds :
    ∀ (total : ℤ) (duration framerate : ℚ) (i : ℤ) (t : ℚ) (k : KeyEvent) (n : ℕ),
      (0 < total → 0 ≤ i → i ≤ total - 1 →
        0 ≤ indexedNav total framerate i k ∧ indexedNav total framerate i k ≤ total - 1)
      ∧ (0 < framerate → 0 < duration → 0 ≤ t → t < duration →
        0 ≤ seekedNav duration framerate t k ∧ seekedNav duration framerate t k < duration)
      ∧ (fun j => indexedNav total framerate j .stepBack)^[n] 0 = 0
      ∧ (0 < framerate → (fun u => seekedNav duration framerate u .stepBack)^[n] 0 = 0) := by
  intro total duration framerate i t k n
  have hf : (1 : ℤ) ≤ framesToMove framerate := le_max_left _ _
  refine ⟨?_, ?_, ?_, ?_⟩
  · intro htot h0 h1
    cases k <;> simp only [indexedNav] <;> try split_ifs <;> omega
    all_goals omega
  · intro hfr hd h0 hlt
    have hfd : 0 < 1 / framerate := by positivity
    cases k <;> simp only [seekedNav]
    case stepForward =>
      split_ifs with h
      · exact ⟨by linarith, h⟩
      · exact ⟨h0, hlt⟩
    case stepBack =>
      exact ⟨le_max_left _ _, max_lt hd (by linarith)⟩
    case jumpForward =>
      split_ifs with h
      · exact ⟨by linarith, h⟩
      · exact ⟨h0, hlt⟩
    case jumpBack =>
      exact ⟨le_max_left _ _, max_lt hd (by linarith)⟩
    all_goals exact ⟨h0, hlt⟩
  · induction n with
    | zero => rfl
    | succ m ihm =>
        rw [Function.iterate_succ_apply', ihm]
        simp only [indexedNav]
        omega
  · intro hfr
    have hfd : 0 < 1 / framerate := by positivity
    induction n with
    | zero => rfl
    | succ m ihm =>
        rw [Function.iterate_succ_apply', ihm]
        simp only [seekedNav]
        rw [max_eq_left (by linarith)]

/-- C1 witness: the bounds theorem instantiated at total 900, duration 600,
framerate 30, index 3, timestamp 0, the JumpForward command and five
StepBack iterations. -/
theorem nav_position_bounds_witness :
    (0 ≤ indexedNav 900 30 3 .jumpForward ∧ indexedNav 900 30 3 .jumpForward ≤ 900 - 1)
    ∧ (0 ≤ seekedNav 600 30 0 .jumpForward ∧ seekedNav 600 30 0 .jumpForward < 600)
    ∧ (fun j => indexedNav 900 30 j .stepBack)^[5] 0 = 0
    ∧ (fun u => seekedNav 600 30 u .stepBack)^[5] 0 = 0 := by
  have h := nav_position_bounds 900 600 30 3 0 .jumpForward 5
  exact ⟨h.1 (by norm_num) (by norm_num) (by norm_num),
    h.2.1 (by norm_num) (by norm_num) (by norm_num) (by norm_num),
    h.2.2.1, h.2.2.2 (by norm_num)⟩

/-- C2 counterexample: the claim predicts a jump of
`max(1, round(framerate*0.25)) = 8` frames at framerate 30 (round half to
even of 7.5 is 8), but the code truncates: `int(30 * 0.25) = 7`, so from
index 0 with 900 frames JumpForward lands on 7, not 8. -/
theorem jump_truncates_not_rounds_counterexample :
    indexedNav 900 30 0 .jumpForward = 7
    ∧ min (900 - 1 : ℤ) (0 + max 1 (roundHalfEven (30 * (1/4 : ℚ)))) = 8
    ∧ (7 : ℤ) ≠ 8 := by
  refine ⟨?_, ?_, by norm_num⟩
  · have h4 : ((30 : ℚ) * (1/4)) = 15/2 := by norm_num
    have hfl : ⌊(15/2 : ℚ)⌋ = 7 := by norm_num [Int.floor_eq_iff]
    simp only [indexedNav, framesToMove, pyInt, h4, hfl, if_pos (by norm_num : (0:ℚ) ≤ 15/2)]
    norm_num
  · have h4 : ((30 : ℚ) * (1/4)) = 15/2 := by norm_num
    have hfl : ⌊(15/2 : ℚ)⌋ = 7 := by norm_num [Int.floor_eq_iff]
    rw [h4]
    rw [roundHalfEven]
    simp only [hfl]
    norm_num

/-- C2 amended: JumpForward/JumpBack move the frame index by
`max(1, ⌊framerate * 0.25⌋)` frames — Python `int()` truncates rather than
rounds — clamped to `[0, total_frames-1]`; with framerate 30 and 900
frames the jump distance is `max(1, ⌊7.5⌋) = 7`, clamped at 899. -/
theorem jump_moves_truncated_quarter_second :
    ∀ (framerate : ℚ) (i : ℤ),
      (0 ≤ framerate → framesToMove framerate = max 1 ⌊framerate * (1/4)⌋)
      ∧ (0 ≤ i → i ≤ 899 →
          indexedNav 900 30 i .jumpForward = min 899 (i + 7)
          ∧ indexedNav 900 30 i .jumpBack = max 0 (i - 7)) := by
  intro framerate i
  have h4 : ((30 : ℚ) * (1/4)) = 15/2 := by norm_num
  have hfl : ⌊(15/2 : ℚ)⌋ = 7 := by norm_num [Int.floor_eq_iff]
  have hmove : framesToMove 30 = 7 := by
    simp only [framesToMove, pyInt, h4, hfl, if_pos (by norm_num : (0:ℚ) ≤ 15/2)]
    norm_num
  constructor
  · intro hfr
    simp only [framesToMove, pyInt, if_pos (by positivity : (0:ℚ) ≤ framerate * (1/4))]
  · intro h0 h1
    constructor
    · simp only [indexedNav, hmove]
      norm_num
    · simp only [indexedNav, hmove]

/-- C2 witness: the amended jump behaviour instantiated at framerate 30
and index 5. -/
theorem jump_moves_truncated_quarter_second_witness :
    framesToMove 30 = max 1 ⌊(30 : ℚ) * (1/4)⌋
    ∧ indexedNav 900 30 5 .jumpForward = min 899 (5 + 7)
    ∧ indexedNav 900 30 5 .jumpBack = max 0 (5 - 7) := by
  have h := jump_moves_truncated_quarter_second 30 5
  exact ⟨h.1 (by norm_num), (h.2 (by norm_num) (by norm_num)).1,
    (h.2 (by norm_num) (by norm_num)).2⟩

/-- C3 counterexample: the claim predicts StepForward lands on
`clamp(t + 1/framerate, 0, duration)`; at duration 600, framerate 1 and
t = 599.5 the clamp is 600, but the code's guarded branch leaves the
position unchanged at 599.5. -/
theorem seeked_step_no_clamp_counterexample :
    seekedNav 600 1 (1199/2) .stepForward = 1199/2
    ∧ specClamp 0 600 (1199/2 + 1/1) = 600
    ∧ (1199/2 : ℚ) ≠ 600 := by
  refine ⟨?_, ?_, by norm_num⟩
  · simp only [seekedNav]
    rw [if_neg (by norm_num)]
  · rw [specClamp]
    rw [min_eq_left (by norm_num), max_eq_right (by norm_num)]

/-- C3 amended: in the Seeked strategy StepForward advances the timestamp
to `t + 1/framerate` only when that lands strictly below `duration`;
otherwise the position is left unchanged (no clamping onto the duration
bound), and in either case the result stays below `duration`. -/
theorem seeked_step_guarded_advance :
    ∀ (duration framerate t : ℚ), 0 ≤ t → t < duration →
      (t + 1/framerate < duration →
          seekedNav duration framerate t .stepForward = t + 1/framerate)
      ∧ (duration ≤ t + 1/framerate →
          seekedNav duration framerate t .stepForward = t)
      ∧ seekedNav duration framerate t .stepForward < duration := by
  intro duration framerate t h0 hlt
  refine ⟨?_, ?_, ?_⟩
  · intro h
    simp only [seekedNav]
    rw [if_pos h]
  · intro h
    simp only [seekedNav]
    rw [if_neg (not_lt.mpr h)]
  · simp only [seekedNav]
    split_ifs with h
    · exact h
    · exact hlt

/-- C3 witness: the guarded-advance theorem instantiated at an interior
point (duration 600, framerate 30, t = 0) and at the boundary case
(duration 600, framerate 1, t = 599.5). -/
theorem seeked_step_guarded_advance_witness :
    seekedNav 600 30 0 .stepForward = 0 + 1/30
    ∧ seekedNav 600 1 (1199/2) .stepForward = 1199/2
    ∧ seekedNav 600 30 0 .stepForward < 600 := by
  have h1 := seeked_step_guarded_advance 600 30 0 (by norm_num) (by norm_num)
  have h2 := seeked_step_guarded_advance 600 1 (1199/2) (by norm_num) (by norm_num)
  exact ⟨h1.1 (by norm_num), h2.2.1 (by norm_num), h1.2.2⟩

/-- C10: in the Indexed strategy, the timestamp used to name a saved frame
is the proportional estimate `current_frame / total_frames * duration`: a
Save processed at in-bounds index `i` continues the loop with the file
`frame_<i/total*duration:.3f>.png` written and its name appended. -/
theorem indexed_save_timestamp_proportional :
    ∀ (total : ℤ) (duration framerate : ℚ) (frames : ℤ → FrameData) (i : ℤ)
      (st : SaveState) (rest : List IEvent),
      0 ≤ i → i < total →
      runIndexedLoop total duration framerate frames i st (.key .save :: rest)
        = runIndexedLoop total duration framerate frames i
            { fs := writeFile st.fs
                (frame_filename ((i : ℚ) / (total : ℚ) * duration)) (frames i)
              saved_frames := st.saved_frames
                ++ [frame_filename ((i : ℚ) / (total : ℚ) * duration)] } rest := by
  intro total duration framerate frames i st rest h0 h1
  simp only [runIndexedLoop, if_pos (And.intro h0 h1)]
  rw [show save_frame st (frames i) ((i : ℚ) / (total : ℚ) * duration)
      = { fs := writeFile st.fs
            (frame_filename ((i : ℚ) / (total : ℚ) * duration)) (frames i)
          saved_frames := st.saved_frames
            ++ [frame_filename ((i : ℚ) / (total : ℚ) * duration)] } from by
    rw [SaveState.mk.injEq]
    exact ⟨save_frame_fs st (frames i) _, save_frame_saved_frames st (frames i) _⟩]

/-- C10 witness: the proportional-timestamp step instantiated at
total 10, duration 60, framerate 30, index 4. -/
theorem indexed_save_timestamp_proportional_witness :
    runIndexedLoop 10 60 30 (fun _ => .path "p") 4 ⟨[], []⟩ [.key .save]
      = runIndexedLoop 10 60 30 (fun _ => .path "p") 4
          { fs := writeFile [] (frame_filename ((4 : ℚ) / (10 : ℚ) * 60))
              ((fun _ => FrameData.path "p") 4)
            saved_frames := [] ++ [frame_filename ((4 : ℚ) / (10 : ℚ) * 60)] } [] :=
  indexed_save_timestamp_proportional 10 60 30 (fun _ => .path "p") 4 ⟨[], []⟩ []
    (by norm_num) (by norm_num)

/-- C4: for every session that ends via Quit, the final report's
saved-frame count equals the number of Save events processed, and the
filenames are listed in the order the saves occurred — for both the
indexed and the seeked loop, starting from frame 0 / timestamp 0 with an
empty `saved_frames` list. -/
theorem final_report_counts_saves_in_order :
    ∀ (total : ℤ) (duration framerate : ℚ) (frames : ℤ → FrameData)
      (decode : ℚ → ℕ) (fs0 : FileSystem) (inputs : List IEvent),
      ((runIndexedLoop total duration framerate frames 0 ⟨fs0, []⟩ inputs).1 = .quit →
        final_report (runIndexedLoop total duration framerate frames 0 ⟨fs0, []⟩ inputs).2.2
          = ⟨numSavesBeforeQuit inputs, indexedSaveLog total duration framerate 0 inputs⟩)
      ∧ ((runSeekedLoop duration framerate decode 0 ⟨fs0, []⟩ inputs).1 = .quit →
        final_report (runSeekedLoop duration framerate decode 0 ⟨fs0, []⟩ inputs).2.2
          = ⟨numSavesBeforeQuit inputs, seekedSaveLog duration framerate 0 inputs⟩) := by
  intro total duration framerate frames decode fs0 inputs
  constructor
  · intro h
    have hs := runIndexedLoop_quit_saved total duration framerate frames inputs 0 ⟨fs0, []⟩ h
    rw [final_report, Report.mk.injEq]
    constructor
    · rw [hs]
      simp [indexedSaveLog_length]
    · rw [hs]
      simp
  · intro h
    have hs := runSeekedLoop_quit_saved duration framerate decode inputs 0 ⟨fs0, []⟩ h
    rw [final_report, Report.mk.injEq]
    constructor
    · rw [hs]
      simp [seekedSaveLog_length]
    · rw [hs]
      simp

/-- C4 witness: a concrete session — save, step forward, save, quit — in
each strategy ends via Quit with a report of exactly the two chronological
saves. -/
theorem final_report_counts_saves_in_order_witness :
    (runIndexedLoop 10 600 30 (fun _ => .path "f") 0 ⟨[], []⟩
        [.key .save, .key .stepForward, .key .save, .key .quit]).1 = .quit
    ∧ final_report (runIndexedLoop 10 600 30 (fun _ => .path "f") 0 ⟨[], []⟩
        [.key .save, .key .stepForward, .key .save, .key .quit]).2.2
      = ⟨numSavesBeforeQuit [.key .save, .key .stepForward, .key .save, .key .quit],
          indexedSaveLog 10 600 30 0
            [.key .save, .key .stepForward, .key .save, .key .quit]⟩
    ∧ numSavesBeforeQuit [.key .save, .key .stepForward, .key .save, .key .quit] = 2
    ∧ (runSeekedLoop 600 30 (fun _ => 7) 0 ⟨[], []⟩
        [.key .save, .key .quit]).1 = .quit
    ∧ final_report (runSeekedLoop 600 30 (fun _ => 7) 0 ⟨[], []⟩
        [.key .save, .key .quit]).2.2
      = ⟨numSavesBeforeQuit [.key .save, .key .quit],
          seekedSaveLog 600 30 0 [.key .save, .key .quit]⟩ := by
  have h := final_report_counts_saves_in_order 10 600 30 (fun _ => .path "f")
    (fun _ => 7) [] [.key .save, .key .stepForward, .key .save, .key .quit]
  have h2 := final_report_counts_saves_in_order 10 600 30 (fun _ => .path "f")
    (fun _ => 7) [] [.key .save, .key .quit]
  refine ⟨by decide, h.1 (by decide), by decide, by decide, h2.2 (by decide)⟩

end Scapper
